import Mathlib

/-!
Verification of the llvm-kernel-testing build planner and its supporting
utilities. The Python sources under `lkt/` and `lib.py` are shallowly
embedded: pure string/arithmetic helpers become Lean functions, stateful
planner methods become explicit state-passing functions, and interactions
with the outside world (filesystem reads, regular-expression search,
subprocess exit codes) are abstracted into explicit input records or
oracle functions that are passed in as parameters.
-/

namespace LKT

/-- Python tuple comparison on integer version tuples (`Version.__lt__` in
`lkt/version.py` compares the underlying key tuples lexicographically;
a strict prefix is smaller). -/
def listLt : List Nat → List Nat → Bool
  | [], [] => false
  | [], _ :: _ => true
  | _ :: _, [] => false
  | a :: restA, b :: restB => decide (a < b) || (decide (a = b) && listLt restA restB)

/-- `a <= b` on version tuples, as derived by `functools.total_ordering`
from `__eq__` and `__lt__`. -/
def listLe (a b : List Nat) : Bool := listLt a b || a == b

/-- `a >= b` on version tuples. -/
def listGe (a b : List Nat) : Bool := listLe b a

/-- Append `x` to `xs` when `b` is true: models a guarded
`list.append(x)` statement in Python. -/
def appendIf {α : Type} (xs : List α) (b : Bool) (x : α) : List α :=
  cond b (xs ++ [x]) xs

theorem mem_appendIf {α : Type} (xs : List α) (b : Bool) (x a : α) :
    a ∈ appendIf xs b x ↔ a ∈ xs ∨ (b = true ∧ a = x) := by
  cases b <;> simp [appendIf]

/-- Python substring containment `needle in haystack` on strings. -/
def strContains (haystack needle : String) : Bool :=
  (List.range (haystack.length + 1)).any
    (fun i => List.isPrefixOf needle.data (haystack.data.drop i))

/-- Characters of `s` up to (excluding) the first occurrence of `sep`:
Python `s.split(sep, 1)[0]`. -/
def takeUntilChar (sep : Char) : List Char → List Char
  | [] => []
  | c :: rest => if c = sep then [] else c :: takeUntilChar sep rest

/-- Python `s.split(sep)` for a single-character separator. -/
def splitOnChar (sep : Char) : List Char → List (List Char)
  | [] => [[]]
  | c :: rest =>
    if c = sep then [] :: splitOnChar sep rest
    else
      match splitOnChar sep rest with
      | [] => [[c]]
      | chunk :: chunks => (c :: chunk) :: chunks

/-- Python `int(s)` on a plain decimal string: defined for nonempty
all-digit strings, `none` (a raised `ValueError`) otherwise. -/
def parseNat (s : List Char) : Option Nat :=
  if s ≠ [] ∧ s.all Char.isDigit then
    some (s.foldl (fun acc c => acc * 10 + (c.toNat - 48)) 0)
  else
    none

/-- Python `s.replace(pat, rep)` for a nonempty pattern: leftmost
non-overlapping occurrences, scanned left to right. The fuel argument is
the remaining input length, which bounds the recursion. -/
def replaceAllAux (pat rep : List Char) : Nat → List Char → List Char
  | 0, s => s
  | fuel + 1, s =>
    match s with
    | [] => []
    | c :: rest =>
      if pat ≠ [] ∧ List.isPrefixOf pat s then
        rep ++ replaceAllAux pat rep fuel (s.drop pat.length)
      else
        c :: replaceAllAux pat rep fuel rest

/-- Python `s.replace(pat, rep)`. -/
def replaceAll (s pat rep : String) : String :=
  ⟨replaceAllAux pat.data rep.data s.data.length s.data⟩

/-- Number of decimal digits of `n`, as produced by `"{:d}".format(n)`. -/
def numDigits (n : Nat) : Nat := if n = 0 then 1 else Nat.log 10 n + 1

/-- `lib.create_version_code`: the integer value of the decimal string
`"{:d}{:02d}{:03d}".format(major, minor, patch)`. Concatenating a decimal
string of width `w = max 2 (numDigits minor)` multiplies the prefix value
by `10 ^ w` and adds `minor`, and likewise for the patch level with
minimum width 3, so the string/`int` round trip is rendered
arithmetically. -/
def create_version_code (version : Nat × Nat × Nat) : Nat :=
  (version.1 * 10 ^ max 2 (numDigits version.2.1) + version.2.1) *
      10 ^ max 3 (numDigits version.2.2) + version.2.2

/-- `lkt.utils.get_time_diff` after `seconds = int(end_time - start_time)`:
decomposes the elapsed whole seconds with `divmod` and joins the nonzero
components (seconds always present) with spaces. -/
def get_time_diff (totalSeconds : Nat) : String :=
  let days := totalSeconds / (60 * 60 * 24)
  let s1 := totalSeconds % (60 * 60 * 24)
  let hours := s1 / (60 * 60)
  let s2 := s1 % (60 * 60)
  let minutes := s2 / 60
  let seconds := s2 % 60
  let parts : List String :=
    (if days ≠ 0 then [toString days ++ "d"] else []) ++
    (if hours ≠ 0 then [toString hours ++ "h"] else []) ++
    (if minutes ≠ 0 then [toString minutes ++ "m"] else []) ++
    [toString seconds ++ "s"]
  String.intercalate " " parts

theorem listLt_cons (a b : Nat) (as bs : List Nat) :
    listLt (a :: as) (b :: bs) = (decide (a < b) || (decide (a = b) && listLt as bs)) := rfl

theorem listLt_nil : listLt [] [] = false := rfl

theorem numDigits_le_of_lt_pow {n w : Nat} (hw : 0 < w) (h : n < 10 ^ w) :
    max w (numDigits n) = w := by
  rcases Nat.eq_zero_or_pos n with hn | hn
  · simp [numDigits, hn, Nat.max_eq_left hw]
  · have hlog : Nat.log 10 n < w := Nat.log_lt_of_lt_pow hn.ne' h
    have hnd : numDigits n ≤ w := by
      simp only [numDigits, if_neg hn.ne']
      omega
    exact Nat.max_eq_left hnd

/-- C7: for version triples with in-range minor (< 100) and patch (< 1000)
components, `create_version_code` equals `major * 100000 + minor * 1000 +
patch`, and integer comparison of two such codes agrees exactly with
lexicographic comparison of the version tuples. -/
theorem create_version_code_correct (a b c d e f : Nat)
    (hb : b < 100) (hc : c < 1000) (he : e < 100) (hf : f < 1000) :
    create_version_code (a, b, c) = a * 100000 + b * 1000 + c ∧
    (create_version_code (a, b, c) < create_version_code (d, e, f) ↔
      listLt [a, b, c] [d, e, f] = true) ∧
    (create_version_code (a, b, c) = create_version_code (d, e, f) ↔
      (a, b, c) = (d, e, f)) := by
  have h100 : (100 : Nat) = 10 ^ 2 := by norm_num
  have h1000 : (1000 : Nat) = 10 ^ 3 := by norm_num
  have eqb := numDigits_le_of_lt_pow (n := b) (w := 2) (by norm_num) (h100 ▸ hb)
  have eqc := numDigits_le_of_lt_pow (n := c) (w := 3) (by norm_num) (h1000 ▸ hc)
  have eqe := numDigits_le_of_lt_pow (n := e) (w := 2) (by norm_num) (h100 ▸ he)
  have eqf := numDigits_le_of_lt_pow (n := f) (w := 3) (by norm_num) (h1000 ▸ hf)
  have habc : create_version_code (a, b, c) = a * 100000 + b * 1000 + c := by
    simp only [create_version_code, eqb, eqc]
    ring_nf
  have hdef : create_version_code (d, e, f) = d * 100000 + e * 1000 + f := by
    simp only [create_version_code, eqe, eqf]
    ring_nf
  refine ⟨habc, ?_, ?_⟩
  · rw [habc, hdef]
    simp [listLt_cons, listLt_nil]
    omega
  · rw [habc, hdef, Prod.mk.injEq, Prod.mk.injEq]
    omega

/-- Closed instance of `create_version_code_correct`. -/
theorem create_version_code_correct_witness :
    create_version_code (1, 2, 3) = 1 * 100000 + 2 * 1000 + 3 ∧
    (create_version_code (1, 2, 3) < create_version_code (4, 5, 6) ↔
      listLt [1, 2, 3] [4, 5, 6] = true) ∧
    (create_version_code (1, 2, 3) = create_version_code (4, 5, 6) ↔
      ((1 : Nat), (2 : Nat), (3 : Nat)) = (4, 5, 6)) :=
  create_version_code_correct 1 2 3 4 5 6 (by norm_num) (by norm_num)
    (by norm_num) (by norm_num)

/-- C10: the duration reported by `get_time_diff` decomposes the elapsed
seconds exactly (days·86400 + hours·3600 + minutes·60 + seconds), with
hours < 24, minutes < 60 and seconds < 60; zero-valued day, hour and
minute components are omitted from the joined string while the seconds
component is always present. -/
theorem get_time_diff_correct (total : Nat) :
    (total / 86400) * 86400 + (total % 86400 / 3600) * 3600 +
        (total % 86400 % 3600 / 60) * 60 + total % 86400 % 3600 % 60 = total ∧
    total % 86400 / 3600 < 24 ∧
    total % 86400 % 3600 / 60 < 60 ∧
    total % 86400 % 3600 % 60 < 60 ∧
    get_time_diff total = String.intercalate " "
      ((if total / 86400 ≠ 0 then [toString (total / 86400) ++ "d"] else []) ++
       (if total % 86400 / 3600 ≠ 0 then [toString (total % 86400 / 3600) ++ "h"] else []) ++
       (if total % 86400 % 3600 / 60 ≠ 0 then [toString (total % 86400 % 3600 / 60) ++ "m"] else []) ++
       [toString (total % 86400 % 3600 % 60) ++ "s"]) := by
  refine ⟨by omega, by omega, by omega, by omega, ?_⟩
  simp only [get_time_diff]

/-! ## `lkt/source.py`: `LinuxSourceManager` -/

/-- The slice of the filesystem that `LinuxSourceManager.__init__` reads:
file contents for `Path.read_text`, file presence for `Path.exists`, and
the three cleanliness probes performed up front. -/
structure FS where
  text : String → String
  fexists : String → Bool
  dotConfigIsFile : Bool
  includeConfigIsDir : Bool
  hasGeneratedDir : Bool

/-- Oracle for `re.search(pattern, text)`: `true` when the pattern matches
somewhere in the text. The regular-expression engine itself is Python
library code, so it is kept abstract. -/
abbrev ReSearch := String → String → Bool

/-- `config.replace('CONFIG_', 'config ')` in
`LinuxSourceManager._add_config`. -/
def configDefinition (config : String) : String :=
  replaceAll config "CONFIG_" "config "

/-- `LinuxSourceManager._add_config`: append the config symbol when its
definition text occurs in the named Kconfig file. -/
def addConfig (fs : FS) (cfgs : List String) (config file : String) : List String :=
  appendIf cfgs (strContains (fs.text file) (configDefinition config)) config

/-- `LinuxSourceManager._add_commit`: append the commit identifier when the
regular expression matches the text of the named file. -/
def addCommit (re : ReSearch) (fs : FS) (commits : List String)
    (commit regex file : String) : List String :=
  appendIf commits (re regex (fs.text file)) commit

/-- Parsing of `make -s kernelversion` output:
`output.split('-', 1)[0].split('.')` mapped through `int`. -/
def parseKernelVersion (s : String) : Option (List Nat) :=
  (splitOnChar '.' (takeUntilChar '-' s.data)).mapM parseNat

/-- The `self.configs` fact list built by `LinuxSourceManager.__init__`,
in probe order. -/
def lsmConfigs (fs : FS) : List String :=
  let cfgs : List String := []
  let cfgs := addConfig fs cfgs "CONFIG_CFI_CLANG" "arch/Kconfig"
  let cfgs := addConfig fs cfgs "CONFIG_HAVE_FUTEX_CMPXCHG" "init/Kconfig"
  let cfgs := addConfig fs cfgs "CONFIG_LTO_CLANG_THIN" "arch/Kconfig"
  let cfgs := addConfig fs cfgs "CONFIG_MODULE_REL_CRCS" "init/Kconfig"
  let cfgs := addConfig fs cfgs "CONFIG_PPC64_BIG_ENDIAN_ELF_ABI_V2" "arch/powerpc/Kconfig"
  let cfgs := addConfig fs cfgs "CONFIG_SHADOW_CALL_STACK" "arch/Kconfig"
  let cfgs := addConfig fs cfgs "CONFIG_WERROR" "init/Kconfig"
  appendIf cfgs (fs.fexists "kernel/bpf/preload/Kconfig") "CONFIG_BPF_PRELOAD"

/-- The `self.commits` fact list built by `LinuxSourceManager.__init__`,
in probe order. Probes that test for file existence or for the absence of
a pattern are rendered with their own guards; the two probes that are
themselves conditional (`65eea6b44a5dd`, `a11334d8327b`) keep their
membership conditions. -/
def lsmCommits (re : ReSearch) (fs : FS) : List String :=
  let commits : List String := []
  let commits := appendIf commits (fs.fexists "scripts/Makefile.clang") "6f5b41a2f5a63"
  let commits := appendIf commits (fs.fexists "arch/mips/vdso/Kconfig") "e91946d6d93ef"
  let commits := appendIf commits (fs.fexists "arch/hexagon/lib/divsi3.S") "f1f99adf05f21"
  let commits := addCommit re fs commits "0355785313e21"
    "LDFLAGS_vmlinux-\\$\\(CONFIG_RELOCATABLE\\) \\+= -z notext" "arch/powerpc/Makefile"
  let commits := addCommit re fs commits "0b5e06e9cb156"
    "CONFIG_SERIAL_PMACZILOG_CONSOLE=y" "arch/powerpc/configs/pmac32_defconfig"
  let commits := addCommit re fs commits "231b232df8f67"
    "config VDSO32\n\tdef_bool y\n\tdepends on PPC32 || COMPAT"
    "arch/powerpc/platforms/Kconfig.cputype"
  let commits := addCommit re fs commits "2255411d1d0f0"
    "config POWERPC_CPU\n\tbool \"Generic 32 bits powerpc\"\n\tdepends on PPC_BOOK3S_32"
    "arch/powerpc/platforms/Kconfig.cputype"
  let commits := addCommit re fs commits "297565aa22cfa" "__restrict" "arch/powerpc/lib/xor_vmx.c"
  let commits := addCommit re fs commits "48cf12d88969b"
    "static __always_inline void call_do_softirq\\(const void \\*sp\\)"
    "arch/powerpc/kernel/irq.c"
  let commits := addCommit re fs commits "51696f39cbee5"
    "noinline_for_stack void byteswap_pt_regs" "arch/powerpc/kvm/book3s_hv_nested.c"
  let commits := addCommit re fs commits "583bfd484bcc8"
    "select ARCH_SUPPORTS_LTO_CLANG_THIN\n" "arch/x86/Kconfig"
  let commits := addCommit re fs commits "6fcb574125e67"
    "config COMPAT\n\tbool \"[a-zA-Z0-9 ]+\"\n\tdepends on PPC64\n\tdepends on !CC_IS_CLANG"
    "arch/powerpc/Kconfig"
  let commits := addCommit re fs commits "788dcee0306e1"
    "KBUILD_CFLAGS \\+= -mlong-calls" "arch/hexagon/Makefile"
  let commits :=
    if "6f5b41a2f5a63" ∈ commits then
      addCommit re fs commits "65eea6b44a5dd" "loongarch64-linux-gnusf" "scripts/Makefile.clang"
    else
      commits
  let commits := addCommit re fs commits "80ddf5ce1c929"
    "config RELOCATABLE\n\tdef_bool y" "arch/s390/Kconfig"
  let commits := addCommit re fs commits "876e480da2f74"
    "__builtin_object_size\\(sa, 0\\) >= sizeof\\(struct sockaddr_in"
    "drivers/infiniband/core/cma.c"
  let commits := addCommit re fs commits "89245600941e4" "-fsanitize=kcfi" "Makefile"
  let commits := addCommit re fs commits "925d046e7e52"
    "static void cma_netevent_work_handler" "drivers/infiniband/core/cma.c"
  let commits := appendIf commits
    (!re "^volatile static long int core99_l2_cache;$"
      (fs.text "arch/powerpc/platforms/powermac/smp.c")) "9451c79bc39e"
  let commits := addCommit re fs commits "9d417cbe36eee"
    "select HAVE_FUTEX_CMPXCHG if FUTEX" "arch/arm/Kconfig"
  let commits :=
    if "CONFIG_PPC64_BIG_ENDIAN_ELF_ABI_V2" ∈ lsmConfigs fs then
      addCommit re fs commits "a11334d8327b"
        "depends on CC_HAS_ELFV2\\n\\tdepends on LD_VERSION >= 22400 \\|\\| LLD_VERSION >= 150000"
        "arch/powerpc/Kconfig"
    else
      commits
  let commits := addCommit re fs commits "aaeed6ecc1253"
    "https://github.com/ClangBuiltLinux/linux/issues/514" "arch/x86/Kconfig"
  let commits := addCommit re fs commits "bb73d07148c40" "R_386_PLT32:" "arch/x86/tools/relocs.c"
  let commits := addCommit re fs commits "c47c7ab9b5363"
    "CONFIG_BLK_DEV_INITRD=y" "arch/mips/configs/malta_defconfig"
  let commits := addCommit re fs commits "d5cbd80e302df"
    "CLANG_FLAGS" "arch/x86/boot/compressed/Makefile"
  let commits := addCommit re fs commits "d8e85e144bbe1"
    "prompt \"Endianness\"" "arch/arm64/Kconfig"
  let commits := addCommit re fs commits "ec3a5cb61146c"
    "KBUILD_CFLAGS \\+= -mno-relax" "arch/riscv/Makefile"
  let commits := addCommit re fs commits "f2928e224d85e"
    "void \\(\\*pm_power_off\\)\\(void\\) = NULL;" "arch/riscv/kernel/reset.c"
  let commits := addCommit re fs commits "ffb92ce826fd8"
    "EXPORT_SYMBOL\\(__raw_readsw\\)" "arch/hexagon/lib/io.c"
  appendIf commits
    (!re "\"(o|n|x)i\t%0,%b1\\\\n\"" (fs.text "arch/s390/include/asm/bitops.h")) "efe5e0fea4b24"

/-- The fact set produced by `LinuxSourceManager.__init__`. -/
structure LinuxSourceManager where
  commits : List String
  configs : List String
  version : List Nat
  deriving DecidableEq

/-- `LinuxSourceManager.__init__`: fails on an unclean tree, then on an
unparsable `make -s kernelversion` output (a raised `ValueError` from
`int`), and otherwise produces the fact set. `kernelversion` is the
stripped stdout of `make -C <source> -s kernelversion`. -/
def mkLinuxSourceManager (re : ReSearch) (fs : FS) (kernelversion : String) :
    Except String LinuxSourceManager :=
  if fs.dotConfigIsFile || fs.includeConfigIsDir || fs.hasGeneratedDir then
    .error "Supplied Linux source is not clean!"
  else
    match parseKernelVersion kernelversion with
    | none => .error "invalid kernelversion output"
    | some version =>
      .ok { commits := lsmCommits re fs, configs := lsmConfigs fs, version := version }

theorem mem_ite_list {α : Type} {c : Prop} [inst : Decidable c] (a : α) (xs ys : List α) :
    (a ∈ if c then xs else ys) ↔ (c ∧ a ∈ xs) ∨ (¬c ∧ a ∈ ys) := by
  split <;> simp_all

theorem configDefinition_CFI : configDefinition "CONFIG_CFI_CLANG" = "config CFI_CLANG" := by
  decide

theorem configDefinition_FUTEX :
    configDefinition "CONFIG_HAVE_FUTEX_CMPXCHG" = "config HAVE_FUTEX_CMPXCHG" := by decide

theorem configDefinition_LTO :
    configDefinition "CONFIG_LTO_CLANG_THIN" = "config LTO_CLANG_THIN" := by decide

theorem configDefinition_CRCS :
    configDefinition "CONFIG_MODULE_REL_CRCS" = "config MODULE_REL_CRCS" := by decide

theorem configDefinition_PPC64 :
    configDefinition "CONFIG_PPC64_BIG_ENDIAN_ELF_ABI_V2" =
      "config PPC64_BIG_ENDIAN_ELF_ABI_V2" := by decide

theorem configDefinition_SCS :
    configDefinition "CONFIG_SHADOW_CALL_STACK" = "config SHADOW_CALL_STACK" := by decide

theorem configDefinition_WERROR : configDefinition "CONFIG_WERROR" = "config WERROR" := by
  decide

/-- C3: whenever `LinuxSourceManager.__init__` succeeds, each commit probed
through `_add_commit` is listed in `self.commits` exactly when its pattern
matches the text of its file (the two conditional probes under their probe
condition), each config probed through `_add_config` is listed in
`self.configs` exactly when its `config X` definition text occurs in its
Kconfig file, and `self.version` is the integer list parsed from the
dotted `make -s kernelversion` output. -/
theorem lsm_fact_probes (re : ReSearch) (fs : FS) (out : String)
    (lsm : LinuxSourceManager) (h : mkLinuxSourceManager re fs out = .ok lsm) :
    parseKernelVersion out = some lsm.version ∧
    (("CONFIG_CFI_CLANG" ∈ lsm.configs) ↔
      strContains (fs.text "arch/Kconfig") "config CFI_CLANG" = true) ∧
    (("CONFIG_HAVE_FUTEX_CMPXCHG" ∈ lsm.configs) ↔
      strContains (fs.text "init/Kconfig") "config HAVE_FUTEX_CMPXCHG" = true) ∧
    (("CONFIG_LTO_CLANG_THIN" ∈ lsm.configs) ↔
      strContains (fs.text "arch/Kconfig") "config LTO_CLANG_THIN" = true) ∧
    (("CONFIG_MODULE_REL_CRCS" ∈ lsm.configs) ↔
      strContains (fs.text "init/Kconfig") "config MODULE_REL_CRCS" = true) ∧
    (("CONFIG_PPC64_BIG_ENDIAN_ELF_ABI_V2" ∈ lsm.configs) ↔
      strContains (fs.text "arch/powerpc/Kconfig") "config PPC64_BIG_ENDIAN_ELF_ABI_V2" = true) ∧
    (("CONFIG_SHADOW_CALL_STACK" ∈ lsm.configs) ↔
      strContains (fs.text "arch/Kconfig") "config SHADOW_CALL_STACK" = true) ∧
    (("CONFIG_WERROR" ∈ lsm.configs) ↔
      strContains (fs.text "init/Kconfig") "config WERROR" = true) ∧
    (("0355785313e21" ∈ lsm.commits) ↔
      re "LDFLAGS_vmlinux-\\$\\(CONFIG_RELOCATABLE\\) \\+= -z notext"
        (fs.text "arch/powerpc/Makefile") = true) ∧
    (("0b5e06e9cb156" ∈ lsm.commits) ↔
      re "CONFIG_SERIAL_PMACZILOG_CONSOLE=y"
        (fs.text "arch/powerpc/configs/pmac32_defconfig") = true) ∧
    (("231b232df8f67" ∈ lsm.commits) ↔
      re "config VDSO32\n\tdef_bool y\n\tdepends on PPC32 || COMPAT"
        (fs.text "arch/powerpc/platforms/Kconfig.cputype") = true) ∧
    (("2255411d1d0f0" ∈ lsm.commits) ↔
      re "config POWERPC_CPU\n\tbool \"Generic 32 bits powerpc\"\n\tdepends on PPC_BOOK3S_32"
        (fs.text "arch/powerpc/platforms/Kconfig.cputype") = true) ∧
    (("297565aa22cfa" ∈ lsm.commits) ↔
      re "__restrict" (fs.text "arch/powerpc/lib/xor_vmx.c") = true) ∧
    (("48cf12d88969b" ∈ lsm.commits) ↔
      re "static __always_inline void call_do_softirq\\(const void \\*sp\\)"
        (fs.text "arch/powerpc/kernel/irq.c") = true) ∧
    (("51696f39cbee5" ∈ lsm.commits) ↔
      re "noinline_for_stack void byteswap_pt_regs"
        (fs.text "arch/powerpc/kvm/book3s_hv_nested.c") = true) ∧
    (("583bfd484bcc8" ∈ lsm.commits) ↔
      re "select ARCH_SUPPORTS_LTO_CLANG_THIN\n" (fs.text "arch/x86/Kconfig") = true) ∧
    (("6fcb574125e67" ∈ lsm.commits) ↔
      re "config COMPAT\n\tbool \"[a-zA-Z0-9 ]+\"\n\tdepends on PPC64\n\tdepends on !CC_IS_CLANG"
        (fs.text "arch/powerpc/Kconfig") = true) ∧
    (("788dcee0306e1" ∈ lsm.commits) ↔
      re "KBUILD_CFLAGS \\+= -mlong-calls" (fs.text "arch/hexagon/Makefile") = true) ∧
    (fs.fexists "scripts/Makefile.clang" = true →
      (("65eea6b44a5dd" ∈ lsm.commits) ↔
        re "loongarch64-linux-gnusf" (fs.text "scripts/Makefile.clang") = true)) ∧
    (("80ddf5ce1c929" ∈ lsm.commits) ↔
      re "config RELOCATABLE\n\tdef_bool y" (fs.text "arch/s390/Kconfig") = true) ∧
    (("876e480da2f74" ∈ lsm.commits) ↔
      re "__builtin_object_size\\(sa, 0\\) >= sizeof\\(struct sockaddr_in"
        (fs.text "drivers/infiniband/core/cma.c") = true) ∧
    (("89245600941e4" ∈ lsm.commits) ↔ re "-fsanitize=kcfi" (fs.text "Makefile") = true) ∧
    (("925d046e7e52" ∈ lsm.commits) ↔
      re "static void cma_netevent_work_handler"
        (fs.text "drivers/infiniband/core/cma.c") = true) ∧
    (("9d417cbe36eee" ∈ lsm.commits) ↔
      re "select HAVE_FUTEX_CMPXCHG if FUTEX" (fs.text "arch/arm/Kconfig") = true) ∧
    (strContains (fs.text "arch/powerpc/Kconfig") "config PPC64_BIG_ENDIAN_ELF_ABI_V2" = true →
      (("a11334d8327b" ∈ lsm.commits) ↔
        re "depends on CC_HAS_ELFV2\\n\\tdepends on LD_VERSION >= 22400 \\|\\| LLD_VERSION >= 150000"
          (fs.text "arch/powerpc/Kconfig") = true)) ∧
    (("aaeed6ecc1253" ∈ lsm.commits) ↔
      re "https://github.com/ClangBuiltLinux/linux/issues/514"
        (fs.text "arch/x86/Kconfig") = true) ∧
    (("bb73d07148c40" ∈ lsm.commits) ↔
      re "R_386_PLT32:" (fs.text "arch/x86/tools/relocs.c") = true) ∧
    (("c47c7ab9b5363" ∈ lsm.commits) ↔
      re "CONFIG_BLK_DEV_INITRD=y" (fs.text "arch/mips/configs/malta_defconfig") = true) ∧
    (("d5cbd80e302df" ∈ lsm.commits) ↔
      re "CLANG_FLAGS" (fs.text "arch/x86/boot/compressed/Makefile") = true) ∧
    (("d8e85e144bbe1" ∈ lsm.commits) ↔
      re "prompt \"Endianness\"" (fs.text "arch/arm64/Kconfig") = true) ∧
    (("ec3a5cb61146c" ∈ lsm.commits) ↔
      re "KBUILD_CFLAGS \\+= -mno-relax" (fs.text "arch/riscv/Makefile") = true) ∧
    (("f2928e224d85e" ∈ lsm.commits) ↔
      re "void \\(\\*pm_power_off\\)\\(void\\) = NULL;"
        (fs.text "arch/riscv/kernel/reset.c") = true) ∧
    (("ffb92ce826fd8" ∈ lsm.commits) ↔
      re "EXPORT_SYMBOL\\(__raw_readsw\\)" (fs.text "arch/hexagon/lib/io.c") = true) := by
  have hstate : lsm.commits = lsmCommits re fs ∧ lsm.configs = lsmConfigs fs ∧
      parseKernelVersion out = some lsm.version := by
    unfold mkLinuxSourceManager at h
    by_cases hd : (fs.dotConfigIsFile || fs.includeConfigIsDir || fs.hasGeneratedDir) = true
    · rw [if_pos hd] at h
      exact absurd h (by simp)
    · rw [if_neg hd] at h
      cases hp : parseKernelVersion out with
      | none => rw [hp] at h; exact absurd h (by simp)
      | some v =>
        rw [hp] at h
        injection h with h
        subst h
        exact ⟨rfl, rfl, rfl⟩
  obtain ⟨hc, hcfg, hv⟩ := hstate
  rw [hc, hcfg]
  refine ⟨hv, ?_, ?_, ?_, ?_, ?_, ?_, ?_, ?_, ?_, ?_, ?_, ?_, ?_, ?_, ?_, ?_, ?_, ?h65, ?_, ?_,
    ?_, ?_, ?_, ?ha11, ?_, ?_, ?_, ?_, ?_, ?_, ?_, ?_⟩
  case h65 =>
    intro hcond
    rcases Bool.dichotomy (strContains (fs.text "arch/powerpc/Kconfig")
      "config PPC64_BIG_ENDIAN_ELF_ABI_V2") with h2 | h2 <;>
    simp +decide [lsmCommits, lsmConfigs, addCommit, addConfig, mem_appendIf, mem_ite_list,
      configDefinition_CFI, configDefinition_FUTEX, configDefinition_LTO, configDefinition_CRCS,
      configDefinition_PPC64, configDefinition_SCS, configDefinition_WERROR, hcond, h2]
  case ha11 =>
    intro hcond
    rcases Bool.dichotomy (fs.fexists "scripts/Makefile.clang") with h1 | h1 <;>
    simp +decide [lsmCommits, lsmConfigs, addCommit, addConfig, mem_appendIf, mem_ite_list,
      configDefinition_CFI, configDefinition_FUTEX, configDefinition_LTO, configDefinition_CRCS,
      configDefinition_PPC64, configDefinition_SCS, configDefinition_WERROR, hcond, h1]
  all_goals
    rcases Bool.dichotomy (fs.fexists "scripts/Makefile.clang") with h1 | h1 <;>
    rcases Bool.dichotomy (strContains (fs.text "arch/powerpc/Kconfig")
      "config PPC64_BIG_ENDIAN_ELF_ABI_V2") with h2 | h2 <;>
    simp +decide [lsmCommits, lsmConfigs, addCommit, addConfig, mem_appendIf, mem_ite_list,
      configDefinition_CFI, configDefinition_FUTEX, configDefinition_LTO, configDefinition_CRCS,
      configDefinition_PPC64, configDefinition_SCS, configDefinition_WERROR, h1, h2]

/-- A concrete filesystem with empty files and no extra paths, used to
instantiate the source-manager theorems. -/
def fsEmpty : FS :=
  { text := fun _ => "", fexists := fun _ => false, dotConfigIsFile := false,
    includeConfigIsDir := false, hasGeneratedDir := false }

/-- A concrete regex oracle that never matches. -/
def reNever : ReSearch := fun _ _ => false

/-- The fact set produced on `fsEmpty` with a `6.1.0` kernelversion: only
the two absence-probed commits are listed. -/
def lsmExample : LinuxSourceManager :=
  { commits := ["9451c79bc39e", "efe5e0fea4b24"], configs := [], version := [6, 1, 0] }

/-- Closed instance of `lsm_fact_probes`. -/
theorem lsm_fact_probes_witness :
    parseKernelVersion "6.1.0" = some lsmExample.version :=
  (lsm_fact_probes reNever fsEmpty "6.1.0" lsmExample (by rfl)).1

/-- A concrete unclean filesystem (a `.config` file is present). -/
def fsDirty : FS :=
  { text := fun _ => "", fexists := fun _ => false, dotConfigIsFile := true,
    includeConfigIsDir := false, hasGeneratedDir := false }

/-- C9: `LinuxSourceManager.__init__` raises on a tree with a `.config`
file, an `include/config` directory or a generated arch include directory
before collecting any facts, so a fact set is only produced for a clean
tree. -/
theorem lsm_clean_tree_check (re : ReSearch) (fs : FS) (out : String) :
    ((fs.dotConfigIsFile || fs.includeConfigIsDir || fs.hasGeneratedDir) = true →
      mkLinuxSourceManager re fs out = .error "Supplied Linux source is not clean!") ∧
    (∀ lsm : LinuxSourceManager, mkLinuxSourceManager re fs out = .ok lsm →
      fs.dotConfigIsFile = false ∧ fs.includeConfigIsDir = false ∧
        fs.hasGeneratedDir = false) := by
  constructor
  · intro hd
    unfold mkLinuxSourceManager
    rw [if_pos hd]
  · intro lsm h
    unfold mkLinuxSourceManager at h
    by_cases hd : (fs.dotConfigIsFile || fs.includeConfigIsDir || fs.hasGeneratedDir) = true
    · rw [if_pos hd] at h
      exact absurd h (by simp)
    · simp at hd
      exact ⟨hd.1.1, hd.1.2, hd.2⟩

/-- Closed instance of `lsm_clean_tree_check`: an unclean tree is refused. -/
theorem lsm_clean_tree_check_witness :
    mkLinuxSourceManager reNever fsDirty "6.1.0" =
      .error "Supplied Linux source is not clean!" :=
  (lsm_clean_tree_check reNever fsDirty "6.1.0").1 (by decide)

/-! ## `lkt/runner.py` planner state and the hexagon / riscv planners -/

/-- A result record produced by `LKTRunner._skip_all` / `_skip_one`. -/
structure SkipResult where
  name : String
  build : String
  reason : String
  deriving DecidableEq

/-- The planner-relevant fields of an `LLVMKernelRunner` constructed by an
architecture planner. -/
structure KernelRunner where
  configs : List String
  bootable : Bool
  only_test_boot : Bool
  deriving DecidableEq

/-- `'.'.join` printing of a version tuple (`Version.__str__`). -/
def verStr (v : List Nat) : String :=
  String.intercalate "." (v.map toString)

/-- Python `dict[key] = value` on an association list. -/
def setVar : List (String × String) → String → String → List (String × String)
  | [], k, v => [(k, v)]
  | (k0, v0) :: rest, k, v =>
    if k0 = k then (k, v) :: rest else (k0, v0) :: setVar rest k v

/-- Python `dict.get(key)` on an association list. -/
def lookupVar : List (String × String) → String → Option String
  | [], _ => none
  | (k0, v0) :: rest, k => if k0 = k then some v0 else lookupVar rest k

/-- The observable state of an architecture planner's `run` method at the
point it either returns early via `_skip_all` or hands its runners to
`LKTRunner.run` (`super().run()`): accumulated `_results` skip entries,
`make_vars`, constructed runners, and whether `super().run()` was
reached. -/
structure PlannerState where
  results : List SkipResult
  make_vars : List (String × String)
  runners : List KernelRunner
  reachedSuper : Bool
  deriving DecidableEq

/-- `LKTRunner._skip_all`: replaces `_results` with a single skipped entry
named `<ARCH> kernels` and returns without running any variant. -/
def skip_all (make_vars : List (String × String)) (arch log_reason : String) : PlannerState :=
  { results := [⟨arch ++ " kernels", "skipped", log_reason⟩], make_vars := make_vars,
    runners := [], reachedSuper := false }

/-- `LKTRunner._skip_one`: one appended skipped entry. -/
def skip_one (name reason : String) : SkipResult := ⟨name, "skipped", reason⟩

/-- The inputs `HexagonLKTRunner.run` consults. -/
structure HexagonInput where
  commits : List String
  linux_version : List Nat
  llvm_version : List Nat
  only_test_boot : Bool
  targets : List String

/-- `HexagonLKTRunner._add_otherconfig_runners`, returning the appended
runners and skip results. -/
def hexagon_add_otherconfig_runners (st : HexagonInput) :
    List KernelRunner × List SkipResult :=
  let have_ffb92ce826fd8 :=
    listGe st.linux_version [5, 16, 0] || decide ("ffb92ce826fd8" ∈ st.commits)
  if have_ffb92ce826fd8 && listGe st.llvm_version [13, 0, 0] then
    let configs := ["allmodconfig"] ++
      (if listGe st.llvm_version [19, 0, 0] then ["CONFIG_FORTIFY_KUNIT_TEST=n"] else [])
    ([⟨configs, false, false⟩], [])
  else
    ([], [skip_one "hexagon allmodconfig"
      ("either lack of ffb92ce826fd8 (from 5.16.0) or LLVM < 13.0.0 (using '" ++
        verStr st.llvm_version ++ "')")])

/-- `HexagonLKTRunner.run` up to the `super().run()` call. -/
def hexagon_run (st : HexagonInput) : PlannerState :=
  let make_vars := [("ARCH", "hexagon")]
  if st.only_test_boot then
    skip_all make_vars "hexagon" "only testing boot"
  else if ¬("788dcee0306e1" ∈ st.commits ∧ "f1f99adf05f21" ∈ st.commits) then
    skip_all make_vars "hexagon"
      "missing 788dcee0306e, 6fff7410f6be, and/or f1f99adf05f2 (from 5.13.0)"
  else
    let make_vars :=
      if "6f5b41a2f5a63" ∉ st.commits then
        setVar make_vars "CROSS_COMPILE" "hexagon-linux-musl"
      else
        make_vars
    let runners := if "def" ∈ st.targets then [(⟨["defconfig"], false, false⟩ : KernelRunner)]
      else []
    let (otherRunners, otherResults) :=
      if "other" ∈ st.targets then hexagon_add_otherconfig_runners st else ([], [])
    { results := otherResults, make_vars := make_vars, runners := runners ++ otherRunners,
      reachedSuper := true }

/-- C1: when the fact set lacks `788dcee0306e1` or `f1f99adf05f21`,
`HexagonLKTRunner.run` leaves a single skipped `hexagon kernels` result
and constructs no runner; and whenever both are present, `6f5b41a2f5a63`
is absent and control reaches the variant-running phase, `CROSS_COMPILE`
is set to `hexagon-linux-musl` in the make variables handed to it. -/
theorem hexagon_run_correct (st : HexagonInput) :
    (¬("788dcee0306e1" ∈ st.commits ∧ "f1f99adf05f21" ∈ st.commits) →
      ∃ reason, (hexagon_run st).results =
          [{ name := "hexagon kernels", build := "skipped", reason := reason }] ∧
        (hexagon_run st).runners = []) ∧
    ("788dcee0306e1" ∈ st.commits → "f1f99adf05f21" ∈ st.commits →
      "6f5b41a2f5a63" ∉ st.commits → (hexagon_run st).reachedSuper = true →
      lookupVar (hexagon_run st).make_vars "CROSS_COMPILE" = some "hexagon-linux-musl") := by
  constructor
  · intro hmiss
    by_cases hb : st.only_test_boot
    · exact ⟨"only testing boot", by simp [hexagon_run, hb, skip_all]⟩
    · refine ⟨"missing 788dcee0306e, 6fff7410f6be, and/or f1f99adf05f2 (from 5.13.0)", ?_⟩
      simp [hexagon_run, hb, hmiss, skip_all]
  · intro h788 hf1f h6f hsuper
    by_cases hb : st.only_test_boot
    · simp [hexagon_run, hb, skip_all] at hsuper
    · simp [hexagon_run, hb, h788, hf1f, h6f, setVar, lookupVar]

/-- A concrete hexagon planner input with an empty fact set. -/
def hexagonInputNoCommits : HexagonInput :=
  { commits := [], linux_version := [5, 10, 0], llvm_version := [15, 0, 0],
    only_test_boot := false, targets := ["def", "other"] }

/-- A concrete hexagon planner input with the two build-fix commits but
without `6f5b41a2f5a63`. -/
def hexagonInputFixed : HexagonInput :=
  { commits := ["788dcee0306e1", "f1f99adf05f21"], linux_version := [5, 16, 0],
    llvm_version := [15, 0, 0], only_test_boot := false, targets := ["def", "other"] }

/-- Closed instance of `hexagon_run_correct`. -/
theorem hexagon_run_correct_witness :
    (∃ reason, (hexagon_run hexagonInputNoCommits).results =
        [{ name := "hexagon kernels", build := "skipped", reason := reason }] ∧
      (hexagon_run hexagonInputNoCommits).runners = []) ∧
    lookupVar (hexagon_run hexagonInputFixed).make_vars "CROSS_COMPILE" =
      some "hexagon-linux-musl" :=
  ⟨(hexagon_run_correct hexagonInputNoCommits).1 (by decide),
    (hexagon_run_correct hexagonInputFixed).2 (by decide) (by decide) (by decide) (by decide)⟩

/-- `RISCVLKTRunner.run` line computing `self._has_lto`: LLVM at least
`MIN_LLVM_VER_LTO = 14.0.0` and `ARCH_SUPPORTS_LTO_CLANG` present in
`arch/riscv/Kconfig`. -/
def riscvHasLto (llvm : List Nat) (riscvKconfig : String) : Bool :=
  listGe llvm [14, 0, 0] && strContains riscvKconfig "ARCH_SUPPORTS_LTO_CLANG"

/-- `RISCVLKTRunner._add_otherconfig_runners`: the appended runners and
skip results, given `self._llvm_version` and `self._has_lto`. -/
def riscv_add_otherconfig_runners (llvm : List Nat) (hasLto : Bool) :
    List KernelRunner × List SkipResult :=
  let runners := [(⟨["allmodconfig"], false, false⟩ : KernelRunner)]
  if !hasLto || (listLe [15, 0, 0] llvm && listLt llvm [17, 0, 0]) then
    (runners, [skip_one "riscv allmodconfig + ThinLTO"
      ("either LLVM between 15.0.0 and 17.0.0 (using '" ++ verStr llvm ++
        "') or Linux < 6.9.0")])
  else
    (runners ++
      [(⟨["allmodconfig", "CONFIG_GCOV_KERNEL=n", "CONFIG_LTO_CLANG_THIN=y"], false,
        false⟩ : KernelRunner)], [])

/-- C2: the riscv `other` target always constructs the `allmodconfig`
runner; it constructs the `allmodconfig + CONFIG_GCOV_KERNEL=n +
CONFIG_LTO_CLANG_THIN=y` runner exactly when ThinLTO is supported
(LLVM >= 14.0.0 and `ARCH_SUPPORTS_LTO_CLANG` in `arch/riscv/Kconfig`)
and the LLVM version is outside the broken half-open range
[15.0.0, 17.0.0); otherwise it records the skipped
`riscv allmodconfig + ThinLTO` entry. -/
theorem riscv_otherconfig_correct (llvm : List Nat) (riscvKconfig : String) :
    (∃ r ∈ (riscv_add_otherconfig_runners llvm (riscvHasLto llvm riscvKconfig)).1,
      KernelRunner.configs r = ["allmodconfig"]) ∧
    ((∃ r ∈ (riscv_add_otherconfig_runners llvm (riscvHasLto llvm riscvKconfig)).1,
        KernelRunner.configs r =
          ["allmodconfig", "CONFIG_GCOV_KERNEL=n", "CONFIG_LTO_CLANG_THIN=y"]) ↔
      (listGe llvm [14, 0, 0] = true ∧ strContains riscvKconfig "ARCH_SUPPORTS_LTO_CLANG" = true ∧
        ¬(listLe [15, 0, 0] llvm = true ∧ listLt llvm [17, 0, 0] = true))) ∧
    ((∃ r ∈ (riscv_add_otherconfig_runners llvm (riscvHasLto llvm riscvKconfig)).2,
        SkipResult.name r = "riscv allmodconfig + ThinLTO") ↔
      ¬(listGe llvm [14, 0, 0] = true ∧ strContains riscvKconfig "ARCH_SUPPORTS_LTO_CLANG" = true ∧
        ¬(listLe [15, 0, 0] llvm = true ∧ listLt llvm [17, 0, 0] = true))) := by
  rcases Bool.dichotomy (listGe llvm [14, 0, 0]) with h14 | h14 <;>
  rcases Bool.dichotomy (strContains riscvKconfig "ARCH_SUPPORTS_LTO_CLANG") with hk | hk <;>
  rcases Bool.dichotomy (listLe [15, 0, 0] llvm) with h15 | h15 <;>
  rcases Bool.dichotomy (listLt llvm [17, 0, 0]) with h17 | h17 <;>
  simp [riscv_add_otherconfig_runners, riscvHasLto, skip_one, h14, hk, h15, h17]

/-! ## `LLVMKernelRunner._build_kernel` (build executor tail) -/

/-- Characters after the first occurrence of `sep`:
`s.split(sep, 1)[1]` (empty when `sep` is absent). -/
def afterChar (sep : Char) : List Char → List Char
  | [] => []
  | c :: rest => if c = sep then rest else afterChar sep rest

/-- Python `str.startswith`. -/
def strStartsWith (s pre : String) : Bool := List.isPrefixOf pre.data s.data

/-- UTF-8 bytes of a string, as written to a binary-mode log file. -/
def strBytes (s : String) : List UInt8 := s.toUTF8.toList

/-- `re.search(f"^{search}$", text, flags=re.M)` for a metacharacter-free
`search`: some newline-separated line of `text` equals `search`. -/
def matchesWholeLine (search : String) (text : String) : Bool :=
  (splitOnChar '\x0a' text.data).any (fun l => l = search.data)

/-- `re.search(f"^{name}=", text, flags=re.M)`: some line starts with
`name=`. -/
def matchesLineStart (pre : String) (text : String) : Bool :=
  (splitOnChar '\x0a' text.data).any (fun l => List.isPrefixOf pre.data l)

/-- The missing-configuration check after `olddefconfig` in
`_build_kernel`: a requested `CONFIG_FOO=val` is missing when its expected
line (`# CONFIG_FOO is not set` for `n`, the option itself otherwise) is
absent from the final `.config`, except that an absent `n`-valued option
only counts when the option appears with some other value. -/
def missingConfigs (requestedOptions : List String) (configText : String) : List String :=
  requestedOptions.filter fun item =>
    let cfg_name : String := ⟨takeUntilChar '=' item.data⟩
    let cfg_val : String := ⟨afterChar '=' item.data⟩
    let search := if cfg_val = "n" then "# " ++ cfg_name ++ " is not set" else item
    if matchesWholeLine search configText then
      false
    else
      cfg_val ≠ "n" || matchesLineStart (cfg_name ++ "=") configText

/-- The byte-at-a-time streaming loop
`while (byte := proc.stdout.read(1)): file.write(byte)`. -/
def streamOutput : List UInt8 → List UInt8 → List UInt8
  | [], log => log
  | b :: rest, log => streamOutput rest (log ++ [b])

/-- Inputs of the build-and-record tail of `_build_kernel`: the command
log preamble already formatted, the `make` subprocess combined
stdout/stderr bytes and return code, the configuration data the
post-build check reads, and the elapsed whole seconds. -/
structure BuildExecInput where
  cmdLogStr : String
  procOutput : List UInt8
  returncode : Int
  needOlddefconfig : Bool
  requestedOptions : List String
  configText : String
  className : String
  elapsedSeconds : Nat

/-- The record fields `_build_kernel` writes, with the final log file
contents. -/
structure BuildExecResult where
  build : String
  duration : String
  log : List UInt8

/-- The tail of `LLVMKernelRunner._build_kernel`: write the command log,
stream every output byte to the log, append the missing-configuration
warning when applicable, set `result['build']` from the return code, and
append the duration line. -/
def build_kernel_exec (inp : BuildExecInput) : BuildExecResult :=
  let log := strBytes inp.cmdLogStr
  let log := streamOutput inp.procOutput log
  let missing :=
    if inp.needOlddefconfig then missingConfigs inp.requestedOptions inp.configText else []
  let log :=
    if missing ≠ [] then
      log ++ strBytes ("\nWARNING: " ++ inp.className ++
        "(): Missing requested configurations after olddefconfig: " ++
        String.intercalate ", " missing ++ "\n")
    else
      log
  let build := if inp.returncode = 0 then "successful" else "failed"
  let duration := get_time_diff inp.elapsedSeconds
  let log := log ++ strBytes ("\nReal\t" ++ duration ++ "\n")
  { build := build, duration := duration, log := log }

theorem streamOutput_eq (out log : List UInt8) : streamOutput out log = log ++ out := by
  induction out generalizing log with
  | nil => simp [streamOutput]
  | cons b rest ih => simp [streamOutput, ih]

theorem isInfix_append_right {α : Type} {l L : List α} (h : List.IsInfix l L) (X : List α) :
    List.IsInfix l (L ++ X) := by
  obtain ⟨s, t, rfl⟩ := h
  exact ⟨s, t ++ X, by simp⟩

/-- C4: the build executor records `result['build'] = 'successful'`
exactly when the `make` subprocess exits 0 (`'failed'` otherwise), and
the complete combined stdout/stderr byte stream of the subprocess appears
contiguously in the log file contents. -/
theorem build_kernel_exec_correct (inp : BuildExecInput) :
    ((build_kernel_exec inp).build = "successful" ↔ inp.returncode = 0) ∧
    ((build_kernel_exec inp).build = "failed" ↔ inp.returncode ≠ 0) ∧
    List.IsInfix inp.procOutput (build_kernel_exec inp).log := by
  refine ⟨?_, ?_, ?_⟩
  · by_cases h : inp.returncode = 0 <;> simp [build_kernel_exec, h]
  · by_cases h : inp.returncode = 0 <;> simp [build_kernel_exec, h]
  · simp only [build_kernel_exec, streamOutput_eq]
    have h1 : List.IsInfix inp.procOutput (strBytes inp.cmdLogStr ++ inp.procOutput) :=
      ⟨strBytes inp.cmdLogStr, [], by simp⟩
    split <;> split <;>
      first
        | exact isInfix_append_right (isInfix_append_right h1 _) _
        | exact isInfix_append_right h1 _

/-! ## `LLVMKernelRunner._boot_kernel` (boot tester) -/

/-- The external state `_boot_kernel` consults: presence of the
`qemu-system-<arch>` binary on PATH, presence of the boot-utils checkout
and its `boot-qemu.py`, and the boot-utils process exit code. -/
structure BootEnv where
  qemuPresent : Bool
  bootUtilsPresent : Bool
  bootQemuPresent : Bool
  returncode : Int

/-- `LLVMKernelRunner._boot_kernel`: returns the recorded
`result['boot']` value (`none` when nothing is recorded) paired with
whether boot-utils was invoked; internal misconfiguration paths raise
(`.error`). -/
def boot_kernel (bootable : Bool) (buildResult : String) (bootArch qemuArch : String)
    (env : BootEnv) : Except String (Option String × Bool) :=
  if !bootable then .ok (none, false)
  else if buildResult = "failed" then .ok (some "skipped", false)
  else if bootArch = "" then .error "No boot-utils architecture set?"
  else if qemuArch = "" then .error "No QEMU architecture set?"
  else if !env.qemuPresent then
    .ok (some ("skipped due to missing qemu-system-" ++ qemuArch), false)
  else if !env.bootUtilsPresent then .error "boot-utils could not be found?"
  else if !env.bootQemuPresent then .error "boot-qemu.py could not be found?"
  else .ok (some (if env.returncode = 0 then "successful" else "failed"), true)

/-- C5: a non-bootable variant records no boot result; a bootable variant
with a failed build records `skipped` without invoking boot-utils; a
bootable variant (with its architecture fields set) whose qemu binary is
missing records a skip naming that binary, again without invoking
boot-utils; otherwise (boot-utils checkout present) boot-utils is invoked
and `successful` is recorded exactly when it exits 0, `failed`
otherwise. -/
theorem boot_kernel_correct (bootable : Bool) (buildResult : String)
    (bootArch qemuArch : String) (env : BootEnv) :
    (bootable = false →
      boot_kernel bootable buildResult bootArch qemuArch env = .ok (none, false)) ∧
    (bootable = true → buildResult = "failed" →
      boot_kernel bootable buildResult bootArch qemuArch env = .ok (some "skipped", false)) ∧
    (bootable = true → buildResult ≠ "failed" → bootArch ≠ "" → qemuArch ≠ "" →
      env.qemuPresent = false →
      boot_kernel bootable buildResult bootArch qemuArch env =
        .ok (some ("skipped due to missing qemu-system-" ++ qemuArch), false)) ∧
    (bootable = true → buildResult ≠ "failed" → bootArch ≠ "" → qemuArch ≠ "" →
      env.qemuPresent = true → env.bootUtilsPresent = true → env.bootQemuPresent = true →
      boot_kernel bootable buildResult bootArch qemuArch env =
          .ok (some (if env.returncode = 0 then "successful" else "failed"), true) ∧
        ((if env.returncode = 0 then "successful" else "failed") = "successful" ↔
          env.returncode = 0)) := by
  refine ⟨?_, ?_, ?_, ?_⟩
  · intro hb
    simp [boot_kernel, hb]
  · intro hb hf
    simp [boot_kernel, hb, hf]
  · intro hb hf ha hq hqemu
    simp [boot_kernel, hb, hf, ha, hq, hqemu]
  · intro hb hf ha hq hqemu hbu hbq
    refine ⟨by simp [boot_kernel, hb, hf, ha, hq, hqemu, hbu, hbq], ?_⟩
    by_cases hrc : env.returncode = 0 <;> simp [hrc]

/-- Closed instance of `boot_kernel_correct`: all four cases at concrete
inputs. -/
theorem boot_kernel_correct_witness :
    boot_kernel false "successful" "riscv" "riscv64" ⟨true, true, true, 0⟩ =
        .ok (none, false) ∧
    boot_kernel true "failed" "riscv" "riscv64" ⟨true, true, true, 0⟩ =
        .ok (some "skipped", false) ∧
    boot_kernel true "successful" "riscv" "riscv64" ⟨false, true, true, 0⟩ =
        .ok (some "skipped due to missing qemu-system-riscv64", false) ∧
    boot_kernel true "successful" "riscv" "riscv64" ⟨true, true, true, 0⟩ =
        .ok (some (if (0 : Int) = 0 then "successful" else "failed"), true) :=
  ⟨(boot_kernel_correct false "successful" "riscv" "riscv64" ⟨true, true, true, 0⟩).1 rfl,
    ((boot_kernel_correct true "failed" "riscv" "riscv64" ⟨true, true, true, 0⟩).2.1 rfl rfl),
    ((boot_kernel_correct true "successful" "riscv" "riscv64" ⟨false, true, true, 0⟩).2.2.1
      rfl (by decide) (by decide) (by decide) rfl),
    ((boot_kernel_correct true "successful" "riscv" "riscv64" ⟨true, true, true, 0⟩).2.2.2
      rfl (by decide) (by decide) (by decide) rfl rfl rfl).1⟩

/-! ## `lkt/report.py`: `LKTReport.generate_report` categorization -/

/-- One entry of the results list handed to `generate_report`. `logText`
is the content of the variant's log file (read only for failed builds). -/
structure ReportResult where
  name : String
  build : String
  duration : Option String
  reason : Option String
  logText : String
  boot : Option String
  deriving DecidableEq

/-- The three report categories. -/
structure Categorized where
  good : List String
  bad : List String
  skip : List String
  deriving DecidableEq

/-- The issue lines extracted from a failed build's log: lines matching
`error:|warning:|undefined` (an alternation of literals, i.e. substring
containment), with the `<source>/` prefix removed. Lines are the
newline-separated pieces of the log (`str.splitlines`; a trailing empty
piece never matches the filter). -/
def report_issues (source : String) (logText : String) : List String :=
  ((splitOnChar '\x0a' logText.data).filter fun l =>
    strContains ⟨l⟩ "error:" || strContains ⟨l⟩ "warning:" || strContains ⟨l⟩ "undefined").map
    fun l => replaceAll ⟨l⟩ (source ++ "/") ""

/-- The `'\n'.join(kernel_result)` entry built for one result: the
space-joined header (name, build state, optional duration and reason),
plus the joined issue lines for a failed build. -/
def build_entry (source : String) (res : ReportResult) : String :=
  let kernel := [res.name, res.build] ++
    (match res.duration with | some d => ["in", d] | none => []) ++
    (match res.reason with | some r => ["due to", r] | none => [])
  let kernel_result := [String.intercalate " " kernel]
  let kernel_result :=
    if res.build = "failed" ∧ report_issues source res.logText ≠ [] then
      kernel_result ++ [String.intercalate "\n" (report_issues source res.logText)]
    else
      kernel_result
  String.intercalate "\n" kernel_result

/-- The `dst` selection and append for the build entry, raising
`ValueError` on an unknown build value. -/
def report_pick_build (source : String) (res : ReportResult) (acc : Categorized) :
    Except String Categorized :=
  let entry := build_entry source res
  if res.build = "failed" then .ok { acc with bad := acc.bad ++ [entry] }
  else if res.build = "skipped" then .ok { acc with skip := acc.skip ++ [entry] }
  else if res.build = "successful" then .ok { acc with good := acc.good ++ [entry] }
  else .error ("Could not handle build result '" ++ res.build ++ "'!")

/-- The additional boot entry categorized by the prefix of the boot value,
raising `ValueError` on an unrecognized prefix. -/
def report_pick_boot (res : ReportResult) (acc : Categorized) : Except String Categorized :=
  match res.boot with
  | none => .ok acc
  | some b =>
    let entry := res.name ++ " qemu boot " ++ b
    if strStartsWith b "failed" then .ok { acc with bad := acc.bad ++ [entry] }
    else if strStartsWith b "skipped" then .ok { acc with skip := acc.skip ++ [entry] }
    else if strStartsWith b "successful" then .ok { acc with good := acc.good ++ [entry] }
    else .error ("Could not handle boot result '" ++ b ++ "'!")

/-- One iteration of the `generate_report` loop. -/
def categorize_one (source : String) (acc : Categorized) (res : ReportResult) :
    Except String Categorized :=
  (report_pick_build source res acc).bind (report_pick_boot res)

/-- The categorization performed by `LKTReport.generate_report` over the
whole results list. -/
def generate_report_categorize (source : String) (results : List ReportResult) :
    Except String Categorized :=
  results.foldlM (categorize_one source) ⟨[], [], []⟩

theorem strStartsWith_exclusive {s p q : String} (hpq : ¬(p.data <+: q.data))
    (hlen : p.data.length ≤ q.data.length) (hq : strStartsWith s q = true) :
    strStartsWith s p = false := by
  rw [strStartsWith, List.isPrefixOf_iff_prefix] at hq
  rw [strStartsWith, ← Bool.not_eq_true, List.isPrefixOf_iff_prefix]
  intro hp
  obtain ⟨t, ht⟩ := hq
  rw [← ht] at hp
  exact hpq ((List.isPrefix_append_of_length hlen).mp hp)

theorem strStartsWith_skipped_not_failed (b : String) (h : strStartsWith b "skipped" = true) :
    strStartsWith b "failed" = false :=
  strStartsWith_exclusive (by decide) (by decide) h

theorem strStartsWith_successful_not_failed (b : String)
    (h : strStartsWith b "successful" = true) : strStartsWith b "failed" = false :=
  strStartsWith_exclusive (by decide) (by decide) h

theorem strStartsWith_successful_not_skipped (b : String)
    (h : strStartsWith b "successful" = true) : strStartsWith b "skipped" = false :=
  strStartsWith_exclusive (by decide) (by decide) h

/-- C6: each result is appended to exactly one of the three categories
according to its build value (`failed` to bad, `skipped` to skip,
`successful` to good) with a `ValueError` for any other value; a result
carrying a boot value gets one additional entry categorized by the boot
value's prefix, with a `ValueError` for an unrecognized prefix; and the
whole-list categorization is the left fold of this per-result step. -/
theorem generate_report_correct (source : String) (res : ReportResult) (acc : Categorized)
    (results : List ReportResult) :
    generate_report_categorize source results =
        List.foldlM (categorize_one source) ⟨[], [], []⟩ results ∧
    categorize_one source acc res = (report_pick_build source res acc).bind
        (report_pick_boot res) ∧
    (res.build = "failed" → report_pick_build source res acc =
        .ok { acc with bad := acc.bad ++ [build_entry source res] }) ∧
    (res.build = "skipped" → report_pick_build source res acc =
        .ok { acc with skip := acc.skip ++ [build_entry source res] }) ∧
    (res.build = "successful" → report_pick_build source res acc =
        .ok { acc with good := acc.good ++ [build_entry source res] }) ∧
    (res.build ≠ "failed" → res.build ≠ "skipped" → res.build ≠ "successful" →
      report_pick_build source res acc =
        .error ("Could not handle build result '" ++ res.build ++ "'!")) ∧
    (res.boot = none → report_pick_boot res acc = .ok acc) ∧
    (∀ b, res.boot = some b → strStartsWith b "failed" = true →
      report_pick_boot res acc =
        .ok { acc with bad := acc.bad ++ [res.name ++ " qemu boot " ++ b] }) ∧
    (∀ b, res.boot = some b → strStartsWith b "skipped" = true →
      report_pick_boot res acc =
        .ok { acc with skip := acc.skip ++ [res.name ++ " qemu boot " ++ b] }) ∧
    (∀ b, res.boot = some b → strStartsWith b "successful" = true →
      report_pick_boot res acc =
        .ok { acc with good := acc.good ++ [res.name ++ " qemu boot " ++ b] }) ∧
    (∀ b, res.boot = some b → strStartsWith b "failed" = false →
      strStartsWith b "skipped" = false → strStartsWith b "successful" = false →
      report_pick_boot res acc = .error ("Could not handle boot result '" ++ b ++ "'!")) := by
  refine ⟨rfl, rfl, ?_, ?_, ?_, ?_, ?_, ?_, ?_, ?_, ?_⟩
  · intro h
    simp +decide [report_pick_build, h]
  · intro h
    simp +decide [report_pick_build, h]
  · intro h
    simp +decide [report_pick_build, h]
  · intro h1 h2 h3
    simp [report_pick_build, h1, h2, h3]
  · intro h
    simp [report_pick_boot, h]
  · intro b hb h
    simp [report_pick_boot, hb, h]
  · intro b hb h
    simp [report_pick_boot, hb, h, strStartsWith_skipped_not_failed b h]
  · intro b hb h
    simp [report_pick_boot, hb, h, strStartsWith_successful_not_failed b h,
      strStartsWith_successful_not_skipped b h]
  · intro b hb h1 h2 h3
    simp [report_pick_boot, hb, h1, h2, h3]

/-- A concrete failed-build result with a failed boot. -/
def reportResFailed : ReportResult :=
  { name := "riscv defconfig", build := "failed", duration := some "1m 2s", reason := none,
    logText := "", boot := some "failed" }

/-- Closed instance of `generate_report_correct`: a failed build goes to
the bad category and its failed boot appends a second bad entry. -/
theorem generate_report_correct_witness :
    report_pick_build "/src/linux" reportResFailed ⟨[], [], []⟩ =
        .ok { good := [], bad := [build_entry "/src/linux" reportResFailed], skip := [] } ∧
    report_pick_boot reportResFailed ⟨[], [], []⟩ =
        .ok { good := [], bad := ["riscv defconfig qemu boot failed"], skip := [] } :=
  ⟨(generate_report_correct "/src/linux" reportResFailed ⟨[], [], []⟩ []).2.2.1 rfl,
    (generate_report_correct "/src/linux" reportResFailed ⟨[], [], []⟩ []).2.2.2.2.2.2.2.1
      "failed" rfl (by decide)⟩

/-! ## `LKTRunner.run`: the sequential variant loop -/

/-- The per-variant external world: the `make` exit code and the boot
tester's environment and exit code. -/
structure VariantOutcome where
  buildRc : Int
  qemuPresent : Bool
  bootUtilsPresent : Bool
  bootQemuPresent : Bool
  bootRc : Int
  deriving DecidableEq

/-- The per-variant configuration the loop body consults. -/
structure VariantCfg where
  bootable : Bool
  bootArch : String
  qemuArch : String
  deriving DecidableEq

/-- `LLVMKernelRunner.run` reduced to its recorded outcome: the build
result from the `make` exit code followed by `_boot_kernel` on that
build result. -/
def run_variant (cfg : VariantCfg) (o : VariantOutcome) :
    Except String (String × Option String) :=
  let build := if o.buildRc = 0 then "successful" else "failed"
  match boot_kernel cfg.bootable build cfg.bootArch cfg.qemuArch
      ⟨o.qemuPresent, o.bootUtilsPresent, o.bootQemuPresent, o.bootRc⟩ with
  | .error e => .error e
  | .ok (boot, _) => .ok (build, boot)

/-- The `for runner in self._runners: self._results.append(runner.run())`
loop of `LKTRunner.run`, with each variant's external outcome drawn from
an index-based oracle. -/
def lkt_run_loop (oracle : Nat → VariantOutcome) :
    Nat → List VariantCfg → List (Except String (String × Option String))
  | _, [] => []
  | i, c :: rest => run_variant c (oracle i) :: lkt_run_loop oracle (i + 1) rest

theorem lkt_run_loop_get (oracle : Nat → VariantOutcome) (cfgs : List VariantCfg)
    (k i : Nat) :
    (lkt_run_loop oracle k cfgs).get? i =
      (cfgs.get? i).map (fun c => run_variant c (oracle (k + i))) := by
  induction cfgs generalizing k i with
  | nil => simp [lkt_run_loop]
  | cons c rest ih =>
    cases i with
    | zero => simp [lkt_run_loop]
    | succ j =>
      simp only [lkt_run_loop, List.get?_cons_succ, ih (k + 1) j]
      have : k + 1 + j = k + (j + 1) := by omega
      rw [this]

/-- C8: the result recorded for the variant at index `i` depends only on
that variant's configuration and its own external outcome — two runs
whose oracles agree at `i` (in particular, runs differing only in prior
variants' build/boot outcomes) record the same result at `i` — and the
sole intra-variant coupling is that a variant's own failed build makes
its own boot test `skipped`. -/
theorem variant_results_independent (cfgs : List VariantCfg)
    (o o' : Nat → VariantOutcome) (i : Nat) (hagree : o i = o' i) :
    (lkt_run_loop o 0 cfgs).get? i = (lkt_run_loop o' 0 cfgs).get? i ∧
    (∀ cfg oc, VariantOutcome.buildRc oc ≠ 0 → VariantCfg.bootable cfg = true →
      run_variant cfg oc = .ok ("failed", some "skipped")) := by
  constructor
  · rw [lkt_run_loop_get, lkt_run_loop_get, Nat.zero_add, hagree]
  · intro cfg oc hrc hb
    simp [run_variant, boot_kernel, hrc, hb]

/-- A two-variant run where the oracles differ only in the first
variant's outcomes. -/
def variantCfgPair : List VariantCfg :=
  [⟨true, "riscv", "riscv64"⟩, ⟨true, "riscv", "riscv64"⟩]

/-- First oracle: variant 0 build fails; second oracle: variant 0
succeeds everywhere. Both agree on variant 1. -/
def variantOracleA : Nat → VariantOutcome :=
  fun i => if i = 0 then ⟨1, true, true, true, 1⟩ else ⟨0, true, true, true, 0⟩

/-- Second oracle of the pair. -/
def variantOracleB : Nat → VariantOutcome :=
  fun i => if i = 0 then ⟨0, true, true, true, 0⟩ else ⟨0, true, true, true, 0⟩

/-- Closed instance of `variant_results_independent`: variant 1's result
is unchanged when only variant 0's outcome differs, and a failed build
skips its own boot. -/
theorem variant_results_independent_witness :
    (lkt_run_loop variantOracleA 0 variantCfgPair).get? 1 =
        (lkt_run_loop variantOracleB 0 variantCfgPair).get? 1 ∧
    run_variant ⟨true, "riscv", "riscv64"⟩ ⟨1, true, true, true, 0⟩ =
        .ok ("failed", some "skipped") :=
  ⟨(variant_results_independent variantCfgPair variantOracleA variantOracleB 1 (by decide)).1,
    (variant_results_independent variantCfgPair variantOracleA variantOracleB 1 (by decide)).2
      ⟨true, "riscv", "riscv64"⟩ ⟨1, true, true, true, 0⟩ (by decide) rfl⟩

end LKT
